import Mathlib

/-!
Verification of the image-annotation utility (`src/streamlit_app.py`) against
its specification.  The script is shallowly embedded: stateful Streamlit /
PyDrive code becomes explicit state passing, Python exceptions become
`Except PyErr`, and the local file system is a list of existing paths.
External services (Google Drive, cv2) are parametrised by oracle arguments
describing whether the underlying remote call succeeds and what it returns;
everything the script itself computes is translated from the source.
-/

namespace ImgAnnApp

/-- A Python exception, coarsely classified.  `attributeError` is the error
raised by an attribute access on an object lacking that attribute (e.g.
`str.name`); `opError` stands for any failure raised by an external call
(network, OAuth, file I/O). -/
inductive PyErr where
  | attributeError
  | opError
  deriving DecidableEq, Repr

/-- The `file_obj` argument of `upload_to_drive` (src line 51).  At both call
sites (src lines 172 and 241) the script passes a plain `str` path
(`strPath`); the docstring instead promises a file-like object carrying a
`.name` attribute (`namedFile`). -/
inductive FileObj where
  | strPath (path : String)
  | namedFile (nm : String)
  deriving DecidableEq, Repr

/-- Python attribute access `file_obj.name` (src lines 64 and 71): succeeds on
a file-like object with a `.name` attribute, raises `AttributeError` on a
plain string. -/
def fileObjName : FileObj → Except PyErr String
  | FileObj.strPath _ => Except.error PyErr.attributeError
  | FileObj.namedFile nm => Except.ok nm

/-- An authenticated `GoogleDrive` handle (opaque to the script). -/
structure Drive where
  deriving DecidableEq, Repr

/-- A file record held by the remote store, as the script sees it: the fields
it reads (`id`, `title`, `mimeType`) plus the query-relevant state
(`parent`, `trashed`). -/
structure RemoteFile where
  id : String
  title : String
  mimeType : String
  parent : String
  trashed : Bool
  deriving DecidableEq, Repr

/-- `authenticate_drive` (src lines 25–48): the whole body is one `try`
block whose outcome is the oracle `body`; on any exception the handler logs,
shows an error and returns `None`. -/
def authenticate_drive (body : Except PyErr Drive) : Option Drive :=
  match body with
  | Except.ok d => some d
  | Except.error _ => none

/-- The `except` handler of `upload_to_drive` (src lines 70–73).  The log
call's f-string evaluates `file_obj.name` again (src line 71): on a plain
string this raises `AttributeError` *inside the handler*, which propagates to
the caller; otherwise the handler returns `None`. -/
def uploadExceptHandler (file_obj : FileObj) : Except PyErr (Option String) :=
  match fileObjName file_obj with
  | Except.ok _ => Except.ok none
  | Except.error e => Except.error e

/-- `upload_to_drive` (src lines 51–73).  The `try` body first evaluates
`file_obj.name` (src line 64), then performs the remote
CreateFile/SetContentFile/Upload sequence, whose success is the oracle
`driveOk` and whose assigned file id is the oracle `newId`.  Result
`Except.ok (some id)` is a normal return of the id, `Except.ok none` the
handler's `return None`, `Except.error e` an exception propagating out of the
function. -/
def upload_to_drive (driveOk : Bool) (newId : String) (file_obj : FileObj)
    (folder_id : Option String) : Except PyErr (Option String) :=
  match fileObjName file_obj with
  | Except.error _ => uploadExceptHandler file_obj
  | Except.ok _ =>
      if driveOk then Except.ok (some newId)
      else uploadExceptHandler file_obj

/-- The Drive query predicate of `list_drive_images` (src line 88):
`'folder_id' in parents and trashed=false and (mimeType='image/jpeg' or
mimeType='image/png')`, as evaluated by the remote store over its files. -/
def isImageQueryHit (folder_id : String) (f : RemoteFile) : Bool :=
  f.parent == folder_id && !f.trashed &&
    (f.mimeType == "image/jpeg" || f.mimeType == "image/png")

/-- `list_drive_images` (src lines 76–95): runs the query against the store's
files (`store`); if the query call itself fails (`queryOk = false`) the
handler logs, shows an error and returns the empty list. -/
def list_drive_images (queryOk : Bool) (store : List RemoteFile)
    (folder_id : String) : List RemoteFile :=
  if queryOk then store.filter (isImageQueryHit folder_id) else []

/-- A decoded OpenCV image: only its shape matters to the script
(src lines 206–209 clamp inputs to it). -/
structure Image where
  height : Nat
  width : Nat
  deriving DecidableEq, Repr

/-- `download_image` (src lines 98–121), with the local file system as a list
of existing paths.  `getOk` is whether `GetContentFile` succeeds (creating
the local file `temp_image`), `decoded` the result of `cv2.imread` (`none`
when the image cannot be decoded).  `os.remove` runs before the `None` check
(src line 113), so the transient file is removed regardless of decode
outcome; a `None` decode then raises `ValueError`, caught by the handler
which returns `None`. -/
def download_image (getOk : Bool) (decoded : Option Image)
    (disk : List String) : Option Image × List String :=
  if getOk then
    let disk1 := "temp_image" :: disk
    let disk2 := disk1.erase "temp_image"
    match decoded with
    | none => (none, disk2)
    | some img => (some img, disk2)
  else (none, disk)

/-- The annotation record built by the save-annotation handler (src lines
217–224): a Python dict with keys, in insertion order, `filename`, `label`,
`x_min`, `y_min`, `x_max`, `y_max`.  Coordinates come from
`st.number_input` widgets with `min_value=0`, hence naturals. -/
structure AnnRecord where
  filename : String
  label : String
  x_min : Nat
  y_min : Nat
  x_max : Nat
  y_max : Nat
  deriving DecidableEq, Repr

/-- The save-annotation button handler (src lines 211–227): reject (no
append, returning `false` for the error/warning path) when
`x_min >= x_max or y_min >= y_max`; otherwise append the record built from
the five inputs plus the selected image's title and return `true`. -/
def saveBoxHandler (session : List AnnRecord)
    (selected_image_title label : String)
    (x_min y_min x_max y_max : Nat) : List AnnRecord × Bool :=
  if x_min ≥ x_max ∨ y_min ≥ y_max then (session, false)
  else (session ++ [AnnRecord.mk selected_image_title label x_min y_min x_max y_max], true)

/-- A sequence of save-annotation interactions, each running the handler on
the session produced by the previous one (each element carries the selected
title and the five collected inputs of one interaction). -/
def editSequence (session : List AnnRecord) (inputs : List AnnRecord) :
    List AnnRecord :=
  inputs.foldl
    (fun s a => (saveBoxHandler s a.filename a.label a.x_min a.y_min a.x_max a.y_max).1)
    session

/-- Header row written by `df.to_csv(..., index=False)` (src line 239): the
DataFrame's columns, i.e. the dict keys in insertion order. -/
def csvHeader : List String :=
  ["filename", "label", "x_min", "y_min", "x_max", "y_max"]

/-- One data row of the exported CSV: the record's six field values in column
order (integers rendered in decimal). -/
def csvRow (a : AnnRecord) : List String :=
  [a.filename, a.label, toString a.x_min, toString a.y_min,
   toString a.x_max, toString a.y_max]

/-- The tabular artifact `pd.DataFrame(session)` serialised by `to_csv`
(src lines 236–239): header row followed by one row per record in list
order. -/
def sessionCsv (session : List AnnRecord) : List (List String) :=
  csvHeader :: session.map csvRow

/-- `GDRIVE_FOLDER_ID` (src line 21). -/
def GDRIVE_FOLDER_ID : String := "YOUR_GOOGLE_DRIVE_FOLDER_ID"

/-- The path of the `NamedTemporaryFile(delete=False, suffix='.csv')` used by
the export handler (src line 238). -/
def exportCsvPath : String := "tmp.csv"

/-- Outcome of the save-all-annotations handler: which user-facing notice the
branch taken surfaces. -/
inductive ExportOutcome where
  | success
  | uploadError
  | nothingToExport
  deriving DecidableEq, Repr

/-- Observable state after the save-all-annotations handler ran: notice
surfaced, session contents, local files existing, the CSV artifact written
(if any), and how many remote-store calls were attempted. -/
structure ExportResult where
  outcome : ExportOutcome
  sessionAfter : List AnnRecord
  diskAfter : List String
  artifact : Option (List (List String))
  remoteCalls : Nat
  deriving DecidableEq, Repr

/-- The save-all-annotations button handler (src lines 232–252).  Empty
session: warn, no remote call.  Otherwise, inside `try`: build the DataFrame,
write the CSV to the transient path, call `upload_to_drive` with that *path
string*; if it returns normally, unlink the CSV, report success and clear the
session; if it raises, the `except` (src line 247) logs and reports failure —
the session is kept, and the unlink (src line 242) was skipped, so the
transient CSV stays on disk. -/
def saveAllHandler (driveOk : Bool) (newId : String)
    (session : List AnnRecord) (disk : List String) : ExportResult :=
  if session.isEmpty then
    ExportResult.mk ExportOutcome.nothingToExport session disk none 0
  else
    let csv := sessionCsv session
    let disk1 := exportCsvPath :: disk
    match upload_to_drive driveOk newId (FileObj.strPath exportCsvPath)
        (some GDRIVE_FOLDER_ID) with
    | Except.ok _ =>
        ExportResult.mk ExportOutcome.success [] (disk1.erase exportCsvPath)
          (some csv) 1
    | Except.error _ =>
        ExportResult.mk ExportOutcome.uploadError session disk1 (some csv) 1

/-- The dropdown mapping `image_options = \x7bimg['title']: img['id'] for img in
drive_images\x7d` (src line 193): a Python dict comprehension, i.e. repeated
dict assignment — an existing key keeps its position and gets the new value,
a new key is appended. -/
def dictInsert : List (String × String) → String → String → List (String × String)
  | [], k, v => [(k, v)]
  | p :: rest, k, v =>
      if p.1 = k then (k, v) :: rest else p :: dictInsert rest k v

/-- `image_options` built from the listed drive images (src line 193). -/
def imageOptions (files : List RemoteFile) : List (String × String) :=
  files.foldl (fun m f => dictInsert m f.title f.id) []

/-- Python dict subscript `image_options[selected_image_title]`
(src line 195) over the association-list model of the dict. -/
def dictGet : List (String × String) → String → Option String
  | [], _ => none
  | p :: rest, t => if p.1 = t then some p.2 else dictGet rest t

/-! ## Claim theorems -/

/-- C1: the save-annotation handler rejects (session unchanged, error path
taken) exactly when `x_min >= x_max or y_min >= y_max`, and otherwise accepts
unconditionally, appending the record built from the five collected inputs
plus the selected image's title as filename to the end of the session. -/
theorem c1_validation (session : List AnnRecord) (title label : String)
    (x_min y_min x_max y_max : Nat) :
    (x_min ≥ x_max ∨ y_min ≥ y_max →
      saveBoxHandler session title label x_min y_min x_max y_max
        = (session, false)) ∧
    (x_min < x_max → y_min < y_max →
      saveBoxHandler session title label x_min y_min x_max y_max
        = (session ++ [AnnRecord.mk title label x_min y_min x_max y_max], true)) := by
  constructor
  · intro h
    simp [saveBoxHandler, h]
  · intro h1 h2
    have hnot : ¬ (x_min ≥ x_max ∨ y_min ≥ y_max) := by omega
    simp [saveBoxHandler, hnot]

/-- Witness for C1 at concrete inputs: (5,5,3,3) is rejected with the session
unchanged, and (1,2,10,20) with an empty label is accepted and appended. -/
theorem c1_validation_witness :
    saveBoxHandler [] "a.jpg" "" 5 5 3 3 = ([], false) ∧
    saveBoxHandler [] "a.jpg" "" 1 2 10 20
      = ([AnnRecord.mk "a.jpg" "" 1 2 10 20], true) :=
  ⟨(c1_validation [] "a.jpg" "" 5 5 3 3).1 (Or.inl (by decide)),
   (c1_validation [] "a.jpg" "" 1 2 10 20).2 (by decide) (by decide)⟩

/-- C2: an export on a non-empty session whose upload step fails leaves the
session exactly as it was. -/
theorem c2_failed_upload_preserves_session (driveOk : Bool)
    (newId : String) (session : List AnnRecord) (disk : List String)
    (e : PyErr) (hne : session ≠ [])
    (hfail : upload_to_drive driveOk newId (FileObj.strPath exportCsvPath)
        (some GDRIVE_FOLDER_ID) = Except.error e) :
    (saveAllHandler driveOk newId session disk).sessionAfter = session := by
  cases session with
  | nil => exact absurd rfl hne
  | cons a s =>
      unfold saveAllHandler
      rw [hfail]
      rfl

/-- Witness for C2: a concrete one-record session exported with a failing
upload (the actual `AttributeError` of the string-path call) is preserved. -/
theorem c2_failed_upload_witness :
    (saveAllHandler true "id0" [AnnRecord.mk "a.jpg" "cat" 1 2 10 20]
        []).sessionAfter
      = [AnnRecord.mk "a.jpg" "cat" 1 2 10 20] :=
  c2_failed_upload_preserves_session true "id0"
    [AnnRecord.mk "a.jpg" "cat" 1 2 10 20] [] PyErr.attributeError
    (List.cons_ne_nil _ _) rfl

/-- C4: an export on a non-empty session writes a tabular artifact consisting
of the header row followed by one row per session record (so its data-row
count equals the session length), the header being exactly the six column
names in order. -/
theorem c4_export_artifact (driveOk : Bool) (newId : String)
    (session : List AnnRecord) (disk : List String) (hne : session ≠ []) :
    (saveAllHandler driveOk newId session disk).artifact
      = some (csvHeader :: session.map csvRow) ∧
    (session.map csvRow).length = session.length ∧
    csvHeader = ["filename", "label", "x_min", "y_min", "x_max", "y_max"] := by
  refine ⟨?_, by simp, rfl⟩
  cases session with
  | nil => exact absurd rfl hne
  | cons a s => rfl

/-- Witness for C4: a concrete one-record export yields the artifact with the
six-name header and one data row. -/
theorem c4_export_artifact_witness :
    (saveAllHandler true "id0" [AnnRecord.mk "a.jpg" "cat" 1 2 10 20]
        []).artifact
      = some [["filename", "label", "x_min", "y_min", "x_max", "y_max"],
              ["a.jpg", "cat", "1", "2", "10", "20"]] := by
  have h := c4_export_artifact true "id0"
    [AnnRecord.mk "a.jpg" "cat" 1 2 10 20] [] (List.cons_ne_nil _ _)
  rw [h.1]
  rfl

/-- C5: an export triggered on the empty session surfaces the
nothing-to-export warning, performs zero remote-store calls, writes no
artifact, and leaves the session empty (and the disk untouched). -/
theorem c5_empty_export (driveOk : Bool) (newId : String)
    (disk : List String) :
    saveAllHandler driveOk newId [] disk
      = ExportResult.mk ExportOutcome.nothingToExport [] disk none 0 :=
  rfl

/-- C8 (code bug exhibit): the download's transient file never outlives the
call — its removal runs regardless of decode outcome — but the export's
transient CSV survives the handler: `upload_to_drive` raises before the
unlink (src line 242) is reached, so the file written at `exportCsvPath`
remains on disk after the handler returns. -/
theorem c8_transient_files :
    (∀ (getOk : Bool) (decoded : Option Image) (disk : List String),
        (download_image getOk decoded disk).2 = disk) ∧
    (saveAllHandler true "id0" [AnnRecord.mk "a.jpg" "cat" 1 2 10 20]
        []).diskAfter = [exportCsvPath] := by
  constructor
  · intro getOk decoded disk
    cases getOk <;> cases decoded <;>
      simp [download_image, List.erase_cons_head]
  · rfl

/-- C9: calling `upload_to_drive` with a plain string path — the form used at
both call sites — raises `AttributeError` at `file_obj.name`, the handler's
own `file_obj.name` raises again, and the exception propagates: the function
returns neither a file id nor `None`, for every drive state, folder argument
and path. -/
theorem c9_upload_str_path_raises (driveOk : Bool) (newId p : String)
    (folder_id : Option String) :
    upload_to_drive driveOk newId (FileObj.strPath p) folder_id
      = Except.error PyErr.attributeError := by
  cases driveOk <;> rfl

/-- C6 (code bug exhibit): `authenticate_drive`, `list_drive_images` and
`download_image` do catch every failure at their own boundary and return the
sentinel absence (`none`, `[]`, `none`), and `upload_to_drive` does so when
its argument carries a `.name` attribute — but at its actual call sites,
where the argument is a string path, the handler itself raises and the
exception propagates instead of a sentinel being returned. -/
theorem c6_error_policy_check :
    (∀ e : PyErr, authenticate_drive (Except.error e) = none) ∧
    (∀ (store : List RemoteFile) (fid : String),
        list_drive_images false store fid = []) ∧
    (∀ (decoded : Option Image) (disk : List String),
        (download_image false decoded disk).1 = none) ∧
    (∀ disk : List String, (download_image true none disk).1 = none) ∧
    (∀ (newId nm : String) (fid : Option String),
        upload_to_drive false newId (FileObj.namedFile nm) fid
          = Except.ok none) ∧
    upload_to_drive true "newid" (FileObj.strPath "tmp.csv")
        (some GDRIVE_FOLDER_ID)
      = Except.error PyErr.attributeError :=
  ⟨fun _ => rfl, fun _ _ => rfl, fun _ _ => rfl, fun _ => rfl,
   fun _ _ _ => rfl, rfl⟩

/-- Helper: a run of save-annotation interactions whose inputs all satisfy
the validation rule appends them in order to the session. -/
theorem editSequence_eq_append (inputs : List AnnRecord) :
    ∀ session : List AnnRecord,
      (∀ a ∈ inputs, a.x_min < a.x_max ∧ a.y_min < a.y_max) →
      editSequence session inputs = session ++ inputs := by
  induction inputs with
  | nil => intro s _; simp [editSequence]
  | cons a rest ih =>
      intro s hv
      have ha := hv a (List.mem_cons_self a rest)
      have hnot : ¬ (a.x_min ≥ a.x_max ∨ a.y_min ≥ a.y_max) := by omega
      have hstep :
          (saveBoxHandler s a.filename a.label a.x_min a.y_min a.x_max a.y_max).1
            = s ++ [a] := by
        simp [saveBoxHandler, hnot]
      have hrest := ih (s ++ [a]) (fun b hb => hv b (List.mem_cons_of_mem a hb))
      calc editSequence s (a :: rest)
          = editSequence (s ++ [a]) rest := by
            simp only [editSequence, List.foldl_cons, hstep]
        _ = (s ++ [a]) ++ rest := hrest
        _ = s ++ a :: rest := by simp

/-- C3: valid annotations saved in sequence end up appended in order with no
reordering or deduplication; row `i` of the exported table (row 0 being the
header) is exactly the six field values of session record `i` unmodified; and
the record (filename="a.jpg", label="cat", 1, 2, 10, 20) serialises to
exactly that row. -/
theorem c3_append_order_roundtrip (session inputs : List AnnRecord)
    (hvalid : ∀ a ∈ inputs, a.x_min < a.x_max ∧ a.y_min < a.y_max) :
    editSequence session inputs = session ++ inputs ∧
    (∀ (s : List AnnRecord) (i : Nat),
        (sessionCsv s)[i + 1]? = Option.map csvRow s[i]?) ∧
    csvRow (AnnRecord.mk "a.jpg" "cat" 1 2 10 20)
      = ["a.jpg", "cat", "1", "2", "10", "20"] := by
  refine ⟨editSequence_eq_append inputs session hvalid, ?_, rfl⟩
  intro s i
  simp [sessionCsv, List.getElem?_map]

/-- Witness for C3: saving the single valid record (filename="a.jpg",
label="cat", 1, 2, 10, 20) into an empty session appends it, and it appears
unmodified as data row 0 of the exported table. -/
theorem c3_append_order_roundtrip_witness :
    editSequence [] [AnnRecord.mk "a.jpg" "cat" 1 2 10 20]
      = [] ++ [AnnRecord.mk "a.jpg" "cat" 1 2 10 20] ∧
    (sessionCsv [AnnRecord.mk "a.jpg" "cat" 1 2 10 20])[1]?
      = some ["a.jpg", "cat", "1", "2", "10", "20"] := by
  have h := c3_append_order_roundtrip [] [AnnRecord.mk "a.jpg" "cat" 1 2 10 20]
    (by intro a ha; simp at ha; subst ha; exact ⟨by decide, by decide⟩)
  refine ⟨h.1, ?_⟩
  rw [h.2.1]
  rfl

/-- C7: when the listing query itself fails the function returns the empty
list rather than raising; when it succeeds it returns, in store order and
with multiplicity, exactly the non-trashed files of the folder whose MIME
type is image/jpeg or image/png. -/
theorem c7_list_images (store : List RemoteFile) (folder_id : String) :
    list_drive_images false store folder_id = [] ∧
    (∀ f : RemoteFile,
        f ∈ list_drive_images true store folder_id ↔
          f ∈ store ∧ f.parent = folder_id ∧ f.trashed = false ∧
            (f.mimeType = "image/jpeg" ∨ f.mimeType = "image/png")) ∧
    (list_drive_images true store folder_id).Sublist store ∧
    (∀ f : RemoteFile,
        (list_drive_images true store folder_id).count f
          = if isImageQueryHit folder_id f then store.count f else 0) := by
    refine ⟨rfl, ?_, ?_, ?_⟩
    · intro f
      simp [list_drive_images, List.mem_filter, isImageQueryHit, and_assoc]
    · exact List.filter_sublist store
    · intro f
      by_cases h : isImageQueryHit folder_id f
      · rw [if_pos h]
        simpa [list_drive_images] using List.count_filter h
      · rw [if_neg h]
        simp only [list_drive_images]
        rw [List.count_eq_zero]
        intro hmem
        exact h (List.mem_filter.mp hmem).2

/-- Helper: looking a title up after one dict assignment sees the new value
for that key and is otherwise unchanged. -/
theorem dictGet_dictInsert (m : List (String × String)) (k v t : String) :
    dictGet (dictInsert m k v) t = if k = t then some v else dictGet m t := by
  induction m with
  | nil => rfl
  | cons p rest ih =>
      simp only [dictInsert]
      by_cases hpk : p.1 = k
      · rw [if_pos hpk]
        have hg : dictGet ((k, v) :: rest) t
            = if k = t then some v else dictGet rest t := rfl
        have hg2 : dictGet (p :: rest) t
            = if p.1 = t then some p.2 else dictGet rest t := rfl
        rw [hg, hg2]
        by_cases hkt : k = t
        · rw [if_pos hkt, if_pos hkt]
        · have hpt : ¬ p.1 = t := by rw [hpk]; exact hkt
          rw [if_neg hkt, if_neg hkt, if_neg hpt]
      · rw [if_neg hpk]
        have hg : dictGet (p :: dictInsert rest k v) t
            = if p.1 = t then some p.2 else dictGet (dictInsert rest k v) t := rfl
        have hg2 : dictGet (p :: rest) t
            = if p.1 = t then some p.2 else dictGet rest t := rfl
        rw [hg, ih, hg2]
        by_cases hpt : p.1 = t
        · have hkt : ¬ k = t := fun h => hpk (hpt.trans h.symm)
          rw [if_pos hpt, if_neg hkt, if_pos hpt]
        · rw [if_neg hpt, if_neg hpt]

/-- Helper: the keys present after one dict assignment are the assigned key
together with the keys already present. -/
theorem mem_keys_dictInsert (m : List (String × String)) (k v t : String) :
    t ∈ (dictInsert m k v).map Prod.fst ↔ t = k ∨ t ∈ m.map Prod.fst := by
  induction m with
  | nil => simp [dictInsert]
  | cons p rest ih =>
      simp only [dictInsert]
      by_cases hpk : p.1 = k
      · rw [if_pos hpk, List.map_cons, List.map_cons, List.mem_cons,
          List.mem_cons, hpk]
        tauto
      · rw [if_neg hpk, List.map_cons, List.map_cons, List.mem_cons,
          List.mem_cons, ih]
        tauto

/-- Helper: one dict assignment preserves distinctness of the keys. -/
theorem nodup_keys_dictInsert (m : List (String × String)) (k v : String)
    (h : (m.map Prod.fst).Nodup) :
    ((dictInsert m k v).map Prod.fst).Nodup := by
  induction m with
  | nil => simp [dictInsert]
  | cons p rest ih =>
      rw [List.map_cons, List.nodup_cons] at h
      simp only [dictInsert]
      by_cases hpk : p.1 = k
      · rw [if_pos hpk, List.map_cons, List.nodup_cons]
        exact ⟨hpk ▸ h.1, h.2⟩
      · rw [if_neg hpk, List.map_cons, List.nodup_cons]
        refine ⟨?_, ih h.2⟩
        intro hmem
        rcases (mem_keys_dictInsert rest k v p.1).mp hmem with hh | hh
        · exact hpk hh
        · exact h.1 hh

/-- Helper: looking a title up in the dict built by the comprehension over
`files`, starting from accumulator `m`, yields the id of the last file of
`files` with that title, falling back to the accumulator's entry. -/
theorem dictGet_foldl (files : List RemoteFile) :
    ∀ (m : List (String × String)) (t : String),
      dictGet (files.foldl (fun acc f => dictInsert acc f.title f.id) m) t
        = ((files.reverse.find? (fun f => f.title == t)).map
            RemoteFile.id).or (dictGet m t) := by
  induction files with
  | nil => intro m t; simp
  | cons f rest ih =>
      intro m t
      rw [List.foldl_cons, ih, List.reverse_cons, List.find?_append,
        dictGet_dictInsert]
      cases hfind : rest.reverse.find? (fun g => g.title == t) with
      | some g => simp
      | none =>
          rw [List.find?_singleton, Option.none_or]
          by_cases ht : f.title = t
          · simp [ht]
          · simp [ht]

/-- Helper: the keys of `image_options` are exactly the listed titles. -/
theorem mem_keys_imageOptions (files : List RemoteFile) (t : String) :
    t ∈ (imageOptions files).map Prod.fst ↔ t ∈ files.map RemoteFile.title := by
  suffices h : ∀ (m : List (String × String)),
      t ∈ ((files.foldl (fun acc f => dictInsert acc f.title f.id) m).map
          Prod.fst)
        ↔ t ∈ files.map RemoteFile.title ∨ t ∈ m.map Prod.fst by
    simpa [imageOptions] using h []
  induction files with
  | nil => intro m; simp
  | cons f rest ih =>
      intro m
      rw [List.foldl_cons, ih, mem_keys_dictInsert, List.map_cons,
        List.mem_cons]
      tauto

/-- C10: looking a title up in the dropdown mapping built from the listed
files yields the id of the last listed file carrying that title (earlier
duplicates are overwritten); the mapping's keys are distinct, so at most one
file per distinct title is selectable; every selectable title is the title
of some listed file; and an accepted save appends a record whose filename is
the selected title — hence every saved annotation's filename equals the
title of some listed file. -/
theorem c10_title_map (files : List RemoteFile) (t : String) :
    dictGet (imageOptions files) t
      = (files.reverse.find? (fun f => f.title == t)).map RemoteFile.id ∧
    ((imageOptions files).map Prod.fst).Nodup ∧
    (t ∈ (imageOptions files).map Prod.fst →
      t ∈ files.map RemoteFile.title) ∧
    (∀ (session : List AnnRecord) (label : String)
        (x_min y_min x_max y_max : Nat),
      x_min < x_max → y_min < y_max →
      (saveBoxHandler session t label x_min y_min x_max y_max).1
        = session ++ [AnnRecord.mk t label x_min y_min x_max y_max]) := by
  refine ⟨?_, ?_, fun hm => (mem_keys_imageOptions files t).mp hm, ?_⟩
  · have h := dictGet_foldl files [] t
    simp only [imageOptions]
    rw [h]
    cases files.reverse.find? (fun f => f.title == t) <;> rfl
  · suffices h : ∀ m : List (String × String), (m.map Prod.fst).Nodup →
        ((files.foldl (fun acc f => dictInsert acc f.title f.id) m).map
          Prod.fst).Nodup by
      exact h [] (by simp)
    induction files with
    | nil => intro m hm; exact hm
    | cons f rest ih =>
        intro m hm
        rw [List.foldl_cons]
        exact ih _ (nodup_keys_dictInsert m f.title f.id hm)
  · intro session label x_min y_min x_max y_max h1 h2
    have hnot : ¬ (x_min ≥ x_max ∨ y_min ≥ y_max) := by omega
    simp [saveBoxHandler, hnot]

/-- Witness for C10: with two listed files both titled "a.jpg", the mapping
retains only the id of the second; "a.jpg" is a listed title; and an
accepted save with the selected title produces a record whose filename is
"a.jpg". -/
theorem c10_title_map_witness :
    dictGet (imageOptions
        [RemoteFile.mk "id1" "a.jpg" "image/png" "F" false,
         RemoteFile.mk "id2" "a.jpg" "image/jpeg" "F" false]) "a.jpg"
      = some "id2" ∧
    "a.jpg" ∈ ([RemoteFile.mk "id1" "a.jpg" "image/png" "F" false,
         RemoteFile.mk "id2" "a.jpg" "image/jpeg" "F" false].map
        RemoteFile.title) ∧
    (saveBoxHandler [] "a.jpg" "cat" 1 2 10 20).1
      = [AnnRecord.mk "a.jpg" "cat" 1 2 10 20] := by
  have h := c10_title_map
    [RemoteFile.mk "id1" "a.jpg" "image/png" "F" false,
     RemoteFile.mk "id2" "a.jpg" "image/jpeg" "F" false] "a.jpg"
  refine ⟨?_, h.2.2.1 (by decide), ?_⟩
  · rw [h.1]
    rfl
  · have h4 := h.2.2.2 [] "cat" 1 2 10 20 (by decide) (by decide)
    rw [h4]
    rfl

end ImgAnnApp
